import Mathlib

/-
Verification of the query/schema construction and scoring subsystem of a
Redis-backed vector store (source: libs/langchain/langchain/vectorstores/redis/redis.py).

The definitions below are a shallow embedding of that module.  External
collaborators (the redis client, the engine, the embedding model, uuid
generation) are passed in as explicit parameters or response values, so every
definition is executable.  Scores are embedded as rationals.
-/

set_option autoImplicit false

namespace LangchainRedis

/-! ## Key construction (source: `_redis_key`, `_redis_prefix`) -/

/-- Redis key for a generated document: `f"{prefix}:{uuid.uuid4().hex}"`.
The uuid hex string is passed in explicitly (`uuid.uuid4()` is an external
source of fresh names). Source function: `_redis_key`. -/
def _redis_key (pre : String) (u : String) : String := pre ++ ":" ++ u

/-- Redis key namespace for a given index: `f"doc:{index_name}"`.
Source function: `_redis_prefix` (renamed here for lexical reasons). -/
def redisKeyPre (index_name : String) : String := "doc:" ++ index_name

/-! ## Relevance scoring

`_default_relevance_score` is in the source file.  The three metric-specific
functions live on the `VectorStore` base class, outside the sources provided
here, so they are modelled from the spec. -/

/-- Source: `_default_relevance_score(val) = 1 - val`. -/
def _default_relevance_score (val : ℚ) : ℚ := 1 - val

/-- Modelled from the spec: the base class's `_cosine_relevance_score_fn`
(`relevance = 1 - distance`); the base class itself is not among the given
sources. -/
def cosine_relevance_score_fn (distance : ℚ) : ℚ := 1 - distance

/-- Modelled from the spec: the base class's
`_max_inner_product_relevance_score_fn` (`relevance = -distance`); the base
class itself is not among the given sources. -/
def max_inner_product_relevance_score_fn (distance : ℚ) : ℚ := -distance

/-- Modelled from the spec: the base class's `_euclidean_relevance_score_fn`
(`relevance = 1 / (1 + distance)`); the base class itself is not among the
given sources. -/
def euclidean_relevance_score_fn (distance : ℚ) : ℚ := 1 / (1 + distance)

/-- Source: `_select_relevance_score_fn`.  The instance attribute
`self.relevance_score_fn` (the caller-supplied override, always truthy when
present) and `self._distance_metric` (already upper-cased at construction) are
passed as arguments.  The source consults a literal dict
`{"COSINE": ..., "IP": ..., "L2": ...}`; membership in that dict is embedded
as the if-chain below. -/
def _select_relevance_score_fn (relevance_score_fn : Option (ℚ → ℚ))
    (distance_metric : String) : ℚ → ℚ :=
  match relevance_score_fn with
  | some f => f
  | none =>
      if distance_metric = "COSINE" then cosine_relevance_score_fn
      else if distance_metric = "IP" then max_inner_product_relevance_score_fn
      else if distance_metric = "L2" then euclidean_relevance_score_fn
      else _default_relevance_score

/-! ## Store state

The fields of a constructed `Redis` instance that the verified operations
read.  `embedding_function` is the external embedding model;
`distance_metric` is `self._vector_schema["distance_metric"].upper()`. -/

structure Store where
  index_name : String
  content_key : String
  vector_key : String
  metadata_keys : List String
  relevance_score_fn : Option (ℚ → ℚ)
  distance_metric : String
  embedding_function : String → List ℚ

/-! ## Query objects (source: `_prepare_vector_query`, `_prepare_range_query`)

`redis.commands.search.query.Query` is external; we record exactly the pieces
of state that this layer sets on it through its builder methods.  `sort_by`
stores the field together with the `asc` flag (the redis client's `sort_by`
defaults to ascending, and the source never passes `asc`); `paging := none`
means this layer never called `.paging`. -/

structure RedisQueryObj where
  query_string : String
  return_fields : List String
  sort_by : Option (String × Bool)
  paging : Option (Nat × Nat)
  dialect : Nat
deriving DecidableEq, Repr

def mkQuery (s : String) : RedisQueryObj :=
  { query_string := s, return_fields := [], sort_by := none, paging := none, dialect := 0 }

def RedisQueryObj.returnFields (q : RedisQueryObj) (fs : List String) : RedisQueryObj :=
  { q with return_fields := fs }

/-- Models `.sort_by(field, asc)`; the redis client defaults `asc` to `True`
and the source never passes it, so call sites here pass `true` explicitly. -/
def RedisQueryObj.sortBy (q : RedisQueryObj) (f : String) (asc : Bool) : RedisQueryObj :=
  { q with sort_by := some (f, asc) }

def RedisQueryObj.setPaging (q : RedisQueryObj) (o n : Nat) : RedisQueryObj :=
  { q with paging := some (o, n) }

def RedisQueryObj.setDialect (q : RedisQueryObj) (d : Nat) : RedisQueryObj :=
  { q with dialect := d }

/-- Source: `_prepare_vector_query`.  `meta_filter` is the rendered filter
expression (`str(meta_filter)`); a `RedisFilter` object is truthy whenever it
is present. -/
def _prepare_vector_query (store : Store) (k : Nat) (meta_filter : Option String) :
    RedisQueryObj :=
  let query_pre : String :=
    match meta_filter with
    | none => "*"
    | some f => f
  let base_query : String :=
    "(" ++ query_pre ++ ")=>[KNN " ++ toString k ++ " @" ++ store.vector_key
      ++ " $vector AS vector_score]"
  let rfs : List String :=
    store.metadata_keys ++ [store.content_key, "vector_score", "id"]
  (((mkQuery base_query).returnFields rfs).sortBy "vector_score" true).setDialect 2

/-- Source: `_prepare_range_query`. -/
def _prepare_range_query (store : Store) (k : Nat) (meta_filter : Option String) :
    RedisQueryObj :=
  let base0 : String := "@" ++ store.vector_key ++ ":[VECTOR_RANGE $score_threshold $vector]"
  let base_query : String :=
    match meta_filter with
    | none => base0
    | some f => "(" ++ base0 ++ " " ++ f ++ ")"
  let query_string : String := base_query ++ "=>\x7b$yield_distance_as: vector_score\x7d"
  let rfs : List String :=
    store.metadata_keys ++ [store.content_key, "vector_score", "id"]
  ((((mkQuery query_string).returnFields rfs).sortBy "vector_score" true).setPaging 0 k).setDialect 2

/-! ## Result translation (source: `_similarity_search`, lines 311-324)

A raw engine record (`redis.commands.search.document.Document`) carries the
projected fields by name.  `attrs` models the projected metadata attributes
(`getattr(result, k)`); claims never exercise a missing attribute, so the
lookup defaults to the empty string.  `vector_score` is the projected
engine distance; `score` models the `result.score` attribute the source
reads at line 320 (an attribute of the external result object, distinct
from the projected `vector_score` field). -/

structure RawRecord where
  id : String
  content : String
  attrs : List (String × String)
  vector_score : ℚ
  score : ℚ
deriving DecidableEq, Repr

structure PyDocument where
  page_content : String
  metadata : List (String × String)
deriving DecidableEq, Repr

/-- Python returns either a plain list of documents or a list of
(document, score) pairs depending on `return_score`. -/
inductive SearchResult where
  | docs : List PyDocument → SearchResult
  | scored : List (PyDocument × ℚ) → SearchResult
deriving DecidableEq, Repr

def getattrStr (attrs : List (String × String)) (k : String) : String :=
  (attrs.lookup k).getD ""

/-- The per-record translation in `_similarity_search`:
`metadata = {k: getattr(result, k) for k in self._metadata_keys}`;
`metadata["id"] = result.id`; `Document(page_content=result.content, ...)`. -/
def translateDoc (metadata_keys : List String) (r : RawRecord) : PyDocument :=
  { page_content := r.content,
    metadata := (metadata_keys.map (fun k => (k, getattrStr r.attrs k))) ++ [("id", r.id)] }

/-- Python keyword binding: a keyword argument binds a named parameter only
when the names match exactly; otherwise it is absorbed by `**kwargs` and the
parameter keeps its default. -/
def kwBool (kwargs : List (String × Bool)) (name : String) (dflt : Bool) : Bool :=
  (kwargs.lookup name).getD dflt

/-- Source: `_similarity_search`.  The engine (`self.client.ft(...).search`)
is passed as a function from the constructed query object to the raw result
records.  `return_score` is the named parameter (default `False` in the
source); `kwargs` holds keyword arguments that did not match any named
parameter. -/
def _similarity_search (store : Store) (engine : RedisQueryObj → List RawRecord)
    (k : Nat) (meta_filter : Option String) (score_threshold : Option ℚ)
    (return_score : Bool) (_kwargs : List (String × Bool)) : SearchResult :=
  let redis_query : RedisQueryObj :=
    match score_threshold with
    | none => _prepare_vector_query store k meta_filter
    | some _ => _prepare_range_query store k meta_filter
  let results := engine redis_query
  let docs := results.map (translateDoc store.metadata_keys)
  let scores := results.map (fun r => r.score)
  if return_score then .scored (docs.zip scores) else .docs docs

/-- Source: `similarity_search_with_score`.  The source calls
`self._similarity_search(query, k=k, meta_filter=meta_filter,
return_scores=True)`.  The keyword is `return_scores`, which does not match
the parameter name `return_score` of `_similarity_search`; under Python
keyword binding it therefore lands in `**kwargs` and `return_score` keeps its
default `False`.  The call-site binding is made mechanical here with
`kwBool`. -/
def similarity_search_with_score (store : Store)
    (engine : RedisQueryObj → List RawRecord) (k : Nat)
    (meta_filter : Option String) : SearchResult :=
  _similarity_search store engine k meta_filter none
    (kwBool [("return_scores", true)] "return_score" false)
    [("return_scores", true)]

/-! ## drop_index (source: `drop_index`)

The two external calls are passed as response values: `connect` is the
outcome of `get_client` (a `ValueError` there is re-raised with a prefix),
and `dropAttempt` is the outcome of `client.ft(index_name).dropindex(...)`,
wrapped in a bare `except` that returns `False`. -/

def drop_index (index_name : String) (delete_documents : Bool)
    (connect : Except String Unit)
    (dropAttempt : String → Bool → Except String Unit) : Except String Bool :=
  match connect with
  | .error e => .error ("Your redis connected error: " ++ e)
  | .ok _ =>
      match dropAttempt index_name delete_documents with
      | .ok _ => .ok true
      | .error _ => .ok false

/-! ## Ingestion pipeline (source: `add_texts`)

The loop buffers `pipeline.hset(...)` commands and sends them with
`pipeline.execute()`.  A record is the field map of one `hset` call; a flush
is the list of records sent by one `execute()` call.  `uuid` supplies the
fresh uuid4 hex strings, in order of generation. -/

structure RedisRecord where
  key : String
  content : String
  vector : List ℚ
  metadata : List (String × String)
deriving DecidableEq, Repr

/-- Result of a call to `add_texts`: the returned ids (or the raised
exception), together with the list of flushed batches, in order.  When an
exception is raised mid-loop, `flushed` holds the batches already executed
before the failure. -/
structure AddTextsResult where
  result : Except String (List String)
  flushed : List (List RedisRecord)

/-- Python truthiness of an optional list value: `None` and `[]` are falsy. -/
def pyTruthy {α : Type} : Option (List α) → Bool
  | none => false
  | some l => !l.isEmpty

/-- Per-item key resolution:
`key = keys_or_ids[i] if keys_or_ids else _redis_key(prefix)`.
Indexing a too-short caller-supplied list raises `IndexError`. -/
def resolveKeyStep (keys_or_ids : Option (List String)) (pre : String)
    (uuid : Nat → String) (i : Nat) : Except String String :=
  match keys_or_ids with
  | none => .ok (_redis_key pre (uuid i))
  | some l =>
      if l.isEmpty then .ok (_redis_key pre (uuid i))
      else
        match l[i]? with
        | some k => .ok k
        | none => .error "IndexError: list index out of range"

/-- Per-item metadata resolution: `metadata = metadatas[i] if metadatas else {}`. -/
def resolveMetaStep (metadatas : Option (List (List (String × String)))) (i : Nat) :
    Except String (List (String × String)) :=
  match metadatas with
  | none => .ok []
  | some ms =>
      if ms.isEmpty then .ok []
      else
        match ms[i]? with
        | some m => .ok m
        | none => .error "IndexError: list index out of range"

/-- Per-item embedding resolution:
`embedding = embeddings[i] if embeddings else self.embedding_function(text)`. -/
def resolveEmbStep (embeddings : Option (List (List ℚ))) (emb_fn : String → List ℚ)
    (t : String) (i : Nat) : Except String (List ℚ) :=
  match embeddings with
  | none => .ok (emb_fn t)
  | some es =>
      if es.isEmpty then .ok (emb_fn t)
      else
        match es[i]? with
        | some e => .ok e
        | none => .error "IndexError: list index out of range"

/-- The `for i, text in enumerate(texts)` loop of `add_texts`, with the final
`pipeline.execute()` after the loop.  `i % batch_size` raises
`ZeroDivisionError` in Python when `batch_size = 0`; the check `i %
batch_size == 0` holds at `i = 0`, so the first flush happens right after the
first item. -/
def addTextsLoop (ks : Option (List String))
    (metadatas : Option (List (List (String × String))))
    (embeddings : Option (List (List ℚ))) (emb_fn : String → List ℚ)
    (pre : String) (uuid : Nat → String) (batch_size : Nat) :
    List String → Nat → List String → List RedisRecord →
    List (List RedisRecord) → AddTextsResult
  | [], _, ids, pending, flushed => ⟨.ok ids, flushed ++ [pending]⟩
  | t :: ts, i, ids, pending, flushed =>
      match resolveKeyStep ks pre uuid i with
      | .error e => ⟨.error e, flushed⟩
      | .ok key =>
          match resolveMetaStep metadatas i with
          | .error e => ⟨.error e, flushed⟩
          | .ok md =>
              match resolveEmbStep embeddings emb_fn t i with
              | .error e => ⟨.error e, flushed⟩
              | .ok emb =>
                  let pending1 := pending ++ [RedisRecord.mk key t emb md]
                  let ids1 := ids ++ [key]
                  if batch_size = 0 then
                    ⟨.error "ZeroDivisionError: integer division or modulo by zero", flushed⟩
                  else if i % batch_size = 0 then
                    addTextsLoop ks metadatas embeddings emb_fn pre uuid batch_size
                      ts (i + 1) ids1 [] (flushed ++ [pending1])
                  else
                    addTextsLoop ks metadatas embeddings emb_fn pre uuid batch_size
                      ts (i + 1) ids1 pending1 flushed

/-- Source: `add_texts`.  `keys_or_ids` models
`kwargs.get("keys", kwargs.get("ids"))`.  The validation `if metadatas: if
len(metadatas) != len(texts): raise ValueError(...)` runs before the pipeline
is created (`if metadatas` is false for `None` and for the empty list); the
second `isinstance` check in the source can never fire for a well-typed list
argument and is omitted. -/
def add_texts (store : Store) (texts : List String)
    (metadatas : Option (List (List (String × String))))
    (embeddings : Option (List (List ℚ)))
    (batch_size : Nat) (keys_or_ids : Option (List String))
    (uuid : Nat → String) : AddTextsResult :=
  let pre := redisKeyPre store.index_name
  if pyTruthy metadatas && ((metadatas.getD []).length != texts.length) then
    ⟨.error "Number of metadatas must match number of texts", []⟩
  else
    addTextsLoop keys_or_ids metadatas embeddings store.embedding_function
      pre uuid batch_size texts 0 [] [] []

/-- Sizes of the flushed batches, in flush order. -/
def flushSizes (r : AddTextsResult) : List Nat := r.flushed.map List.length

/-- The key the loop resolves for item `i` (the total specification-side
companion of `resolveKeyStep`): the caller-supplied `keys_or_ids[i]` when a
non-empty key list was supplied, and the generated `prefix:uuid` key
otherwise. -/
def keyAtFun (ks : Option (List String)) (pre : String) (uuid : Nat → String)
    (i : Nat) : String :=
  match ks with
  | none => _redis_key pre (uuid i)
  | some l => if l.isEmpty then _redis_key pre (uuid i) else (l[i]?).getD ""

/-- The list `[f i, f (i+1), ..., f (i+n-1)]`. -/
def keysSpec (f : Nat → String) : Nat → Nat → List String
  | _, 0 => []
  | i, n + 1 => f i :: keysSpec f (i + 1) n

/-- The full list of keys `add_texts` returns for `n` input texts. -/
def expectedKeys (ks : Option (List String)) (pre : String) (uuid : Nat → String)
    (n : Nat) : List String :=
  keysSpec (keyAtFun ks pre uuid) 0 n

/-! ## Class-level vector schema (source: `_default_content_vector_schema`, `__init__`)

`_default_content_vector_schema` is a class attribute (a single shared dict).
`__init__` executes `self._vector_schema = self._default_content_vector_schema`
— an alias, not a copy — and then, when a custom `vector_schema` dict is
given, `self._vector_schema.update(vector_schema)`, which mutates the shared
class-level dict.  Construction is therefore modelled as a function from the
current value of the class attribute to (its value afterwards, the schema the
new instance sees). -/

structure VectorSchema where
  name : String
  dims : Nat
  distance_metric : String
  algorithm : String
  datatype : String
deriving DecidableEq, Repr

def _default_content_vector_schema : VectorSchema :=
  { name := "content_vector", dims := 1536, distance_metric := "cosine",
    algorithm := "flat", datatype := "float32" }

/-- A caller-supplied `vector_schema` dict: any subset of the keys may be
present; `dict.update` overwrites exactly the present ones. -/
structure SchemaOverride where
  name : Option String
  dims : Option Nat
  distance_metric : Option String
  algorithm : Option String
  datatype : Option String

def VectorSchema.applyUpdate (s : VectorSchema) (o : SchemaOverride) : VectorSchema :=
  { name := o.name.getD s.name,
    dims := o.dims.getD s.dims,
    distance_metric := o.distance_metric.getD s.distance_metric,
    algorithm := o.algorithm.getD s.algorithm,
    datatype := o.datatype.getD s.datatype }

/-- The `__init__` lines 139-141, threading the class attribute explicitly:
returns (value of the class attribute after construction, the `_vector_schema`
of the new instance).  Because `update` mutates the aliased dict, both
components coincide. -/
def initVectorSchema (classAttr : VectorSchema) (vector_schema : Option SchemaOverride) :
    VectorSchema × VectorSchema :=
  match vector_schema with
  | some o =>
      let updated := classAttr.applyUpdate o
      (updated, updated)
  | none => (classAttr, classAttr)

/-! ## from_texts_return_keys (source: `from_texts_return_keys`)

After constructing the instance, the source computes
`embeddings = embedding.embed_documents(texts)`, then calls
`instance._create_index(dim=len(embeddings[0]))` — the argument
`len(embeddings[0])` is evaluated before `_create_index` is entered, so an
empty `embeddings` list raises `IndexError` before any index-creation or
write call — and finally `instance.add_texts(texts, metadatas, embeddings)`
with the default batch size 1000 and no keys. -/

inductive EngineOp where
  | createIndex (dim : Nat)
  | flush (recs : List RedisRecord)
deriving DecidableEq, Repr

def from_texts_return_keys (store : Store)
    (embed_documents : List String → List (List ℚ)) (texts : List String)
    (metadatas : Option (List (List (String × String))))
    (uuid : Nat → String) : Except String (List String) × List EngineOp :=
  let embeddings := embed_documents texts
  match embeddings[0]? with
  | none => (.error "IndexError: list index out of range", [])
  | some first =>
      let r := add_texts store texts metadatas (some embeddings) 1000 none uuid
      (r.result, EngineOp.createIndex first.length :: r.flushed.map EngineOp.flush)

/-! ## Sample store used by concrete witnesses -/

def sampleStore : Store :=
  { index_name := "idx", content_key := "content", vector_key := "content_vector",
    metadata_keys := [], relevance_score_fn := none, distance_metric := "COSINE",
    embedding_function := fun _ => [1] }

/-- A single raw engine record with raw distance 1/5, used by the C1
counterexample. -/
def c1Record : RawRecord :=
  { id := "a", content := "hello", attrs := [], vector_score := 1/5, score := 1/5 }

/-- An engine returning exactly `c1Record` for any query. -/
def c1Engine : RedisQueryObj → List RawRecord := fun _ => [c1Record]

/-- Two texts with the default batch size 1000: the input of the C2 check. -/
def c2Result : AddTextsResult :=
  add_texts sampleStore ["t0", "t1"] none none 1000 none (fun _ => "u")

/-- Three texts with an empty (provided) metadata list: the input of the C4
counterexample. -/
def c4Result : AddTextsResult :=
  add_texts sampleStore ["a", "b", "c"] (some []) none 1000 none (fun _ => "u")

/-- The identity override used by the C7 witness. -/
def c7IdFn : ℚ → ℚ := fun d => d

/-- A caller-supplied `vector_schema` dict carrying only a distance metric. -/
def c9Override : SchemaOverride :=
  { name := none, dims := none, distance_metric := some "l2",
    algorithm := none, datatype := none }

/-- Run 1 of the C9 experiment: construct an instance with a custom
`vector_schema`, then an instance with `vector_schema=None`; the value is the
vector schema the second instance sees. -/
def c9RunWithEarlierCustom : VectorSchema :=
  let after1 := (initVectorSchema _default_content_vector_schema (some c9Override)).1
  (initVectorSchema after1 none).2

/-- Run 2 of the C9 experiment: construct only the `vector_schema=None`
instance. -/
def c9RunAlone : VectorSchema :=
  (initVectorSchema _default_content_vector_schema none).2

/-! ## Helper lemmas for the ingestion loop -/

lemma resolveKeyStep_of_bound (ks : Option (List String)) (pre : String)
    (uuid : Nat → String) (i : Nat)
    (h : ∀ l, ks = some l → l.isEmpty = false → i < l.length) :
    resolveKeyStep ks pre uuid i = .ok (keyAtFun ks pre uuid i) := by
  cases ks with
  | none => rfl
  | some l =>
      by_cases hl : l.isEmpty
      · simp [resolveKeyStep, keyAtFun, hl]
      · have hb : i < l.length := h l rfl (by simpa using hl)
        simp [resolveKeyStep, keyAtFun, hl, List.getElem?_eq_getElem hb]

lemma resolveMetaStep_isOk (metadatas : Option (List (List (String × String)))) (i : Nat)
    (h : ∀ ms, metadatas = some ms → ms.isEmpty = false → i < ms.length) :
    ∃ md, resolveMetaStep metadatas i = .ok md := by
  cases metadatas with
  | none => exact ⟨[], rfl⟩
  | some ms =>
      by_cases hm : ms.isEmpty
      · exact ⟨[], by simp [resolveMetaStep, hm]⟩
      · have hb : i < ms.length := h ms rfl (by simpa using hm)
        exact ⟨ms[i], by simp [resolveMetaStep, hm, List.getElem?_eq_getElem hb]⟩

lemma resolveEmbStep_isOk (embeddings : Option (List (List ℚ)))
    (emb_fn : String → List ℚ) (t : String) (i : Nat)
    (h : ∀ es, embeddings = some es → es.isEmpty = false → i < es.length) :
    ∃ ev, resolveEmbStep embeddings emb_fn t i = .ok ev := by
  cases embeddings with
  | none => exact ⟨emb_fn t, rfl⟩
  | some es =>
      by_cases hs : es.isEmpty
      · exact ⟨emb_fn t, by simp [resolveEmbStep, hs]⟩
      · have hb : i < es.length := h es rfl (by simpa using hs)
        exact ⟨es[i], by simp [resolveEmbStep, hs, List.getElem?_eq_getElem hb]⟩

lemma keysSpec_length (f : Nat → String) : ∀ (n i : Nat), (keysSpec f i n).length = n := by
  intro n
  induction n with
  | zero => intro i; rfl
  | succ n ih => intro i; simp [keysSpec, ih]

lemma keysSpec_getD (f : Nat → String) :
    ∀ (n i j : Nat), j < n → (keysSpec f i n).getD j "" = f (i + j) := by
  intro n
  induction n with
  | zero => intro i j hj; omega
  | succ n ih =>
      intro i j hj
      cases j with
      | zero => simp [keysSpec]
      | succ j =>
          have hj2 : j < n := Nat.lt_of_succ_lt_succ hj
          simp only [keysSpec, List.getD_cons_succ]
          rw [ih (i + 1) j hj2]
          congr 1
          omega

lemma addTextsLoop_ok (ks : Option (List String))
    (metadatas : Option (List (List (String × String))))
    (embeddings : Option (List (List ℚ))) (emb_fn : String → List ℚ)
    (pre : String) (uuid : Nat → String) (B : Nat) (hB : 0 < B) :
    ∀ (ts : List String) (i : Nat) (ids : List String)
      (pending : List RedisRecord) (flushed : List (List RedisRecord)),
      (∀ l, ks = some l → l.isEmpty = false → i + ts.length ≤ l.length) →
      (∀ ms, metadatas = some ms → ms.isEmpty = false → i + ts.length ≤ ms.length) →
      (∀ es, embeddings = some es → es.isEmpty = false → i + ts.length ≤ es.length) →
      ∃ fl, addTextsLoop ks metadatas embeddings emb_fn pre uuid B ts i ids pending flushed =
        ⟨.ok (ids ++ keysSpec (keyAtFun ks pre uuid) i ts.length), fl⟩ := by
  intro ts
  induction ts with
  | nil =>
      intro i ids pending flushed _ _ _
      exact ⟨flushed ++ [pending], by simp [addTextsLoop, keysSpec]⟩
  | cons t ts ih =>
      intro i ids pending flushed hk hm he
      have hkey : resolveKeyStep ks pre uuid i = .ok (keyAtFun ks pre uuid i) := by
        apply resolveKeyStep_of_bound
        intro l hl hne
        have := hk l hl hne
        simp only [List.length_cons] at this
        omega
      obtain ⟨md, hmd⟩ := resolveMetaStep_isOk metadatas i (by
        intro ms hms hne
        have := hm ms hms hne
        simp only [List.length_cons] at this
        omega)
      obtain ⟨ev, hev⟩ := resolveEmbStep_isOk embeddings emb_fn t i (by
        intro es hes hne
        have := he es hes hne
        simp only [List.length_cons] at this
        omega)
      have hk2 : ∀ l, ks = some l → l.isEmpty = false → (i + 1) + ts.length ≤ l.length := by
        intro l hl hne
        have := hk l hl hne
        simp only [List.length_cons] at this
        omega
      have hm2 : ∀ ms, metadatas = some ms → ms.isEmpty = false →
          (i + 1) + ts.length ≤ ms.length := by
        intro ms hms hne
        have := hm ms hms hne
        simp only [List.length_cons] at this
        omega
      have he2 : ∀ es, embeddings = some es → es.isEmpty = false →
          (i + 1) + ts.length ≤ es.length := by
        intro es hes hne
        have := he es hes hne
        simp only [List.length_cons] at this
        omega
      have hB0 : ¬ B = 0 := by omega
      by_cases hmod : i % B = 0
      · obtain ⟨fl, hfl⟩ := ih (i + 1) (ids ++ [keyAtFun ks pre uuid i]) []
          (flushed ++ [pending ++ [RedisRecord.mk (keyAtFun ks pre uuid i) t ev md]])
          hk2 hm2 he2
        refine ⟨fl, ?_⟩
        simp only [addTextsLoop, hkey, hmd, hev, if_neg hB0, if_pos hmod, hfl]
        simp [keysSpec, List.append_assoc]
      · obtain ⟨fl, hfl⟩ := ih (i + 1) (ids ++ [keyAtFun ks pre uuid i])
          (pending ++ [RedisRecord.mk (keyAtFun ks pre uuid i) t ev md]) flushed
          hk2 hm2 he2
        refine ⟨fl, ?_⟩
        simp only [addTextsLoop, hkey, hmd, hev, if_neg hB0, if_neg hmod, hfl]
        simp [keysSpec, List.append_assoc]

/-! ## Claim theorems -/

/-- C1 is false as stated: for a store declared with the COSINE metric and an
engine returning one record with raw distance 1/5, `similarity_search_with_score`
does not return (document, score) pairs carrying the selected mapping applied
to the raw distance — it returns bare documents with no scores at all (the
`return_scores` keyword does not match the `return_score` parameter). -/
theorem c1_counterexample :
    similarity_search_with_score sampleStore c1Engine 1 none ≠
      SearchResult.scored
        [(PyDocument.mk "hello" [("id", "a")],
          _select_relevance_score_fn sampleStore.relevance_score_fn
            sampleStore.distance_metric c1Record.vector_score)] := by
  have h : similarity_search_with_score sampleStore c1Engine 1 none =
      SearchResult.docs [PyDocument.mk "hello" [("id", "a")]] := rfl
  rw [h]
  intro hcontra
  exact SearchResult.noConfusion hcontra

/-- C1 (amended): `_select_relevance_score_fn` does select the metric-specific
mapping (COSINE ↦ 1 - d, IP ↦ -d, L2 ↦ 1/(1+d)) when no override is supplied,
and returns a caller-supplied override as-is; but `similarity_search_with_score`
applies no relevance mapping to any result: it returns the translated
documents without scores, because the keyword `return_scores` it passes does
not match `_similarity_search`'s `return_score` parameter. -/
theorem c1_amended_no_mapping_applied :
    (∀ (store : Store) (engine : RedisQueryObj → List RawRecord) (k : Nat)
        (mf : Option String),
        similarity_search_with_score store engine k mf =
          SearchResult.docs
            ((engine (_prepare_vector_query store k mf)).map
              (translateDoc store.metadata_keys))) ∧
    _select_relevance_score_fn none "COSINE" = cosine_relevance_score_fn ∧
    _select_relevance_score_fn none "IP" = max_inner_product_relevance_score_fn ∧
    _select_relevance_score_fn none "L2" = euclidean_relevance_score_fn ∧
    (∀ (f : ℚ → ℚ) (m : String), _select_relevance_score_fn (some f) m = f) :=
  ⟨fun _ _ _ _ => rfl, rfl, rfl, rfl, fun _ _ => rfl⟩

/-- C2 is contradicted by the code: with two texts and `batch_size = 1000`
(so `n ≤ B`), the claim requires a single final flush covering both writes,
but `i % batch_size == 0` already holds at `i = 0`, so the code flushes a
batch of one item right after the first write and then flushes the remaining
item at the end: the flush sizes are [1, 1], not [2]. -/
theorem c2_early_first_flush :
    c2Result.result = .ok ["doc:idx:u", "doc:idx:u"] ∧
    flushSizes c2Result = [1, 1] ∧ ([1, 1] : List Nat) ≠ [2] :=
  ⟨rfl, rfl, by decide⟩

/-- C3: when `add_texts` is given length-compatible optional inputs and a
positive batch size, it completes and returns exactly one key per input text,
in input order: the i-th returned key is the caller-supplied `keys[i]` when a
non-empty `keys`/`ids` list was supplied, and the freshly generated
`doc:<index_name>:<uuid>` key otherwise. -/
theorem c3_add_texts_returned_keys (store : Store) (texts : List String)
    (metadatas : Option (List (List (String × String))))
    (embeddings : Option (List (List ℚ))) (batch_size : Nat)
    (keys_or_ids : Option (List String)) (uuid : Nat → String)
    (hB : 0 < batch_size)
    (hk : ∀ l, keys_or_ids = some l → l = [] ∨ texts.length ≤ l.length)
    (hm : ∀ ms, metadatas = some ms → ms = [] ∨ ms.length = texts.length)
    (he : ∀ es, embeddings = some es → es = [] ∨ texts.length ≤ es.length) :
    (add_texts store texts metadatas embeddings batch_size keys_or_ids uuid).result =
      .ok (expectedKeys keys_or_ids (redisKeyPre store.index_name) uuid texts.length) ∧
    (expectedKeys keys_or_ids (redisKeyPre store.index_name) uuid texts.length).length =
      texts.length ∧
    (∀ i, i < texts.length →
      (expectedKeys keys_or_ids (redisKeyPre store.index_name) uuid
          texts.length).getD i "" =
        keyAtFun keys_or_ids (redisKeyPre store.index_name) uuid i) := by
  have hcheck : (pyTruthy metadatas && ((metadatas.getD []).length != texts.length))
      = false := by
    cases metadatas with
    | none => rfl
    | some ms =>
        rcases hm ms rfl with h | h
        · subst h; rfl
        · simp [pyTruthy, h]
  obtain ⟨fl, hfl⟩ := addTextsLoop_ok keys_or_ids metadatas embeddings
    store.embedding_function (redisKeyPre store.index_name) uuid batch_size hB
    texts 0 [] [] []
    (by intro l hl hne
        rcases hk l hl with h | h
        · subst h; simp at hne
        · omega)
    (by intro ms hms hne
        rcases hm ms hms with h | h
        · subst h; simp at hne
        · omega)
    (by intro es hes hne
        rcases he es hes with h | h
        · subst h; simp at hne
        · omega)
  refine ⟨?_, keysSpec_length _ _ _, ?_⟩
  · simp [add_texts, hcheck, hfl, expectedKeys]
  · intro i hi
    unfold expectedKeys
    rw [keysSpec_getD _ _ _ _ hi]
    simp

/-- Concrete instance of C3: three texts with three caller-supplied keys. -/
theorem c3_witness :
    (add_texts sampleStore ["a", "b", "c"] none none 1000 (some ["k1", "k2", "k3"])
        (fun _ => "u")).result = .ok ["k1", "k2", "k3"] := by
  have h := (c3_add_texts_returned_keys sampleStore ["a", "b", "c"] none none 1000
    (some ["k1", "k2", "k3"]) (fun _ => "u") (by norm_num)
    (fun l hl => by injection hl with h2; subst h2; right; decide)
    (fun ms hms => Option.noConfusion hms)
    (fun es hes => Option.noConfusion hes)).1
  exact h.trans rfl

/-- C4 is false as stated for an empty metadata list: `metadatas = []` is
provided and its length 0 differs from the 3 texts, yet `if metadatas:` is
false for the empty list, so no validation error is raised and three
documents are written (flushes of sizes 1 and 2). -/
theorem c4_counterexample :
    c4Result.result = .ok ["doc:idx:u", "doc:idx:u", "doc:idx:u"] ∧
    flushSizes c4Result = [1, 2] :=
  ⟨rfl, rfl⟩

/-- C4 (amended): when `metadatas` is provided NON-EMPTY and its length
differs from the number of texts, the call fails with the validation error
before the pipeline is created, and nothing is flushed. -/
theorem c4_amended_nonempty_mismatch (store : Store) (texts : List String)
    (ms : List (List (String × String)))
    (embeddings : Option (List (List ℚ))) (batch_size : Nat)
    (keys_or_ids : Option (List String)) (uuid : Nat → String)
    (hne : ms ≠ []) (hlen : ms.length ≠ texts.length) :
    add_texts store texts (some ms) embeddings batch_size keys_or_ids uuid =
      ⟨.error "Number of metadatas must match number of texts", []⟩ := by
  have h1 : pyTruthy (some ms) = true := by
    cases ms with
    | nil => exact absurd rfl hne
    | cons a l => rfl
  simp [add_texts, h1, hlen]

/-- Concrete instance of amended C4: metadatas of length 2 against 3 texts. -/
theorem c4_witness :
    add_texts sampleStore ["a", "b", "c"] (some [[("k", "v")], [("k", "v")]]) none 1000
      none (fun _ => "u") =
      ⟨.error "Number of metadatas must match number of texts", []⟩ :=
  c4_amended_nonempty_mismatch sampleStore ["a", "b", "c"] [[("k", "v")], [("k", "v")]]
    none 1000 none (fun _ => "u") (by decide) (by decide)

/-- C5: for every `k` and optional metadata filter, the KNN-mode query string
is `(filterExpr or "*")=>[KNN k @vectorField $vector AS vector_score]`, the
projection is exactly the metadata field names followed by the content field,
`vector_score`, and `id`, and the sort is ascending on `vector_score`. -/
theorem c5_knn_query_shape (store : Store) (k : Nat) (mf : Option String) :
    (_prepare_vector_query store k mf).query_string =
      "(" ++ mf.getD "*" ++ ")=>[KNN " ++ toString k ++ " @" ++ store.vector_key
        ++ " $vector AS vector_score]" ∧
    (_prepare_vector_query store k mf).return_fields =
      store.metadata_keys ++ [store.content_key, "vector_score", "id"] ∧
    (_prepare_vector_query store k mf).sort_by = some ("vector_score", true) := by
  cases mf <;> exact ⟨rfl, rfl, rfl⟩

/-- C6: for every `k` and optional metadata filter, the range-mode query is
`@vectorField:[VECTOR_RANGE $score_threshold $vector]` with the
`$yield_distance_as: vector_score` clause appended, wrapped into a
parenthesized space-separated (AND) conjunction with the filter expression
when one is present; the projection and sort are the same as in KNN mode,
and the paging is explicitly [0, k]. -/
theorem c6_range_query_shape (store : Store) (k : Nat) (mf : Option String) :
    (_prepare_range_query store k mf).query_string =
      (match mf with
       | none => "@" ++ store.vector_key ++ ":[VECTOR_RANGE $score_threshold $vector]"
       | some f =>
           "(" ++ ("@" ++ store.vector_key ++ ":[VECTOR_RANGE $score_threshold $vector]")
             ++ " " ++ f ++ ")")
        ++ "=>\x7b$yield_distance_as: vector_score\x7d" ∧
    (_prepare_range_query store k mf).return_fields =
      (_prepare_vector_query store k mf).return_fields ∧
    (_prepare_range_query store k mf).sort_by =
      (_prepare_vector_query store k mf).sort_by ∧
    (_prepare_range_query store k mf).paging = some (0, k) := by
  cases mf <;> exact ⟨rfl, rfl, rfl, rfl⟩

/-- C7 is false as stated: when a caller-supplied override (here the
identity) is given, the mapping used is the override itself, not
`1 - distance`: at distance 0 it yields 0 while `1 - distance` yields 1. -/
theorem c7_counterexample :
    _select_relevance_score_fn (some (fun d => d)) "L2" 0 ≠ 1 - (0 : ℚ) := by
  show (0 : ℚ) ≠ 1 - 0
  norm_num

/-- C7 (amended): when the metric is none of COSINE, IP, L2 AND no override
is supplied, the mapping is `1 - distance`; when a caller-supplied override
is given, the override itself is used. -/
theorem c7_amended_fallback :
    (∀ m : String, m ≠ "COSINE" → m ≠ "IP" → m ≠ "L2" →
        _select_relevance_score_fn none m = _default_relevance_score) ∧
    (∀ (f : ℚ → ℚ) (m : String), _select_relevance_score_fn (some f) m = f) := by
  refine ⟨?_, fun f m => rfl⟩
  intro m h1 h2 h3
  simp only [_select_relevance_score_fn, if_neg h1, if_neg h2, if_neg h3]

/-- Concrete instance of amended C7: an unknown metric falls back to the
default mapping, and an override is used as-is. -/
theorem c7_witness :
    _select_relevance_score_fn none "HAMMING" = _default_relevance_score ∧
    _select_relevance_score_fn (some c7IdFn) "COSINE" = c7IdFn :=
  ⟨c7_amended_fallback.1 "HAMMING" (by decide) (by decide) (by decide),
   c7_amended_fallback.2 c7IdFn "COSINE"⟩

/-- C8: any failure of the engine's dropindex call is swallowed: `drop_index`
returns the boolean `False` — it does not propagate the error — whenever the
drop attempt fails, in particular for a non-existent index. -/
theorem c8_drop_index_swallows (name : String) (del : Bool)
    (att : String → Bool → Except String Unit) (e : String)
    (h : att name del = .error e) :
    drop_index name del (.ok ()) att = .ok false := by
  simp [drop_index, h]

/-- Concrete instance of C8: dropping a non-existent index returns false. -/
theorem c8_witness :
    drop_index "nonexistent" true (.ok ())
      (fun _ _ => .error "Unknown Index name") = .ok false :=
  c8_drop_index_swallows "nonexistent" true (fun _ _ => .error "Unknown Index name")
    "Unknown Index name" rfl

/-- C9 is contradicted by the code: constructing an instance with a custom
`vector_schema` mutates the shared class-level default dict, so a later
instance constructed with `vector_schema=None` sees `distance_metric = "l2"`
when an earlier instance overrode it, but `"cosine"` when constructed alone —
the two runs disagree. -/
theorem c9_construction_interference :
    c9RunWithEarlierCustom.distance_metric = "l2" ∧
    c9RunAlone = _default_content_vector_schema ∧
    c9RunWithEarlierCustom ≠ c9RunAlone := by
  refine ⟨rfl, rfl, ?_⟩
  decide

/-- C10: calling `from_texts_return_keys` with an empty texts list (and an
embedding collaborator that returns one vector per text, hence `[]` on `[]`)
raises `IndexError` at `len(embeddings[0])`, before any index-creation or
write call is issued. -/
theorem c10_empty_texts_error (store : Store)
    (embed_documents : List String → List (List ℚ))
    (metadatas : Option (List (List (String × String)))) (uuid : Nat → String)
    (h : embed_documents [] = []) :
    from_texts_return_keys store embed_documents [] metadatas uuid =
      (.error "IndexError: list index out of range", []) := by
  simp [from_texts_return_keys, h]

/-- Concrete instance of C10. -/
theorem c10_witness :
    from_texts_return_keys sampleStore (fun _ => []) [] none (fun _ => "u") =
      (.error "IndexError: list index out of range", []) :=
  c10_empty_texts_error sampleStore (fun _ => []) none (fun _ => "u") rfl

end LangchainRedis
